import Mathlib

/-
  Verification of the crawl-extract-filter-paginate pipeline of the
  centris-scraper repository (src/main.js, three pipeline variants:
  v1.1.0, v2.0.0 and v1.0.0).  JavaScript values are shallowly embedded:
  nullable numbers become Option Int, nullable strings Option String,
  and JS truthiness is made explicit (null, undefined, 0, NaN and the
  empty string are falsy).
-/

namespace Centris

/-! ## String and character utilities (JS semantics made explicit) -/

/-- Numeric value of a list of decimal digit characters, as JS parseInt
on an all-digit string. -/
def digitsVal (cs : List Char) : Nat :=
  cs.foldl (fun acc c => 10 * acc + (c.toNat - 48)) 0

/-- JS truthiness of a nullable number: null, undefined and 0 are falsy. -/
def jsTruthyInt : Option Int → Bool
  | none => false
  | some n => n != 0

/-- JS truthiness of a nullable string: null, undefined and "" are falsy. -/
def jsTruthyStr : Option String → Bool
  | none => false
  | some s => !s.data.isEmpty

/-- Whitespace characters recognised by the embedding of JS trim and
the regex class for whitespace. -/
def isWsChar (c : Char) : Bool :=
  c == ' ' || c == '\t' || c == '\n' || c == '\r'

/-- Embedding of JS String.prototype.trim. -/
def trimJs (s : String) : String :=
  ⟨((s.data.dropWhile isWsChar).reverse.dropWhile isWsChar).reverse⟩

/-- Embedding of JS toLowerCase for the characters occurring in the
region table and property types: ASCII letters plus the accented
uppercase letters used by the French region names. -/
def jsToLowerChar (c : Char) : Char :=
  if 'A' ≤ c ∧ c ≤ 'Z' then Char.ofNat (c.toNat + 32)
  else if c = 'É' then 'é'
  else if c = 'È' then 'è'
  else if c = 'Ê' then 'ê'
  else if c = 'Ë' then 'ë'
  else if c = 'À' then 'à'
  else if c = 'Â' then 'â'
  else if c = 'Ç' then 'ç'
  else if c = 'Î' then 'î'
  else if c = 'Ï' then 'ï'
  else if c = 'Ô' then 'ô'
  else if c = 'Ù' then 'ù'
  else if c = 'Û' then 'û'
  else if c = 'Ü' then 'ü'
  else c

def jsToLower (s : String) : String := ⟨s.data.map jsToLowerChar⟩

/-- ASCII uppercase conversion, for the postal code normalisation. -/
def asciiUpperChar (c : Char) : Char :=
  if 'a' ≤ c ∧ c ≤ 'z' then Char.ofNat (c.toNat - 32) else c

def asciiUpper (s : String) : String := ⟨s.data.map asciiUpperChar⟩

/-- Does the pattern occur as an initial segment of the haystack? -/
def leadsWith : List Char → List Char → Bool
  | _, [] => true
  | [], _ :: _ => false
  | a :: as, b :: bs => a == b && leadsWith as bs

/-- Does the pattern occur anywhere inside the haystack?  Embedding of
JS String.prototype.includes. -/
def containsSub : List Char → List Char → Bool
  | [], pat => leadsWith [] pat
  | c :: t, pat => leadsWith (c :: t) pat || containsSub t pat

/-- s.includes sub, per JS. -/
def strIncludes (s sub : String) : Bool := containsSub s.data sub.data

/-! ## Price extraction (parsePrice, identical in all three variants,
and the inline extraction in the v1.1.0 search card extractor) -/

/-- Embedding of parsePrice (main.js lines 123-127, 804-808, 1561-1565):
strips every non-digit character; a falsy input or empty remainder
yields null, else the integer value. -/
def parsePrice : Option String → Option Int
  | none => none
  | some s =>
    if s.data.isEmpty then none
    else
      let cleaned := s.data.filter Char.isDigit
      if cleaned.isEmpty then none else some (Int.ofNat (digitsVal cleaned))

/-- Embedding of the inline price extraction of the v1.1.0 search card
extractor (main.js line 185):
parseInt of the digit-stripped string, then the JS or-with-null, which
maps both NaN (empty digit string) and 0 to null. -/
def inlineCardPrice (priceFormatted : String) : Option Int :=
  let cleaned := priceFormatted.data.filter Char.isDigit
  if cleaned.isEmpty then none
  else
    let v : Int := Int.ofNat (digitsVal cleaned)
    if v = 0 then none else some v

/-! ## Run configuration and listing records -/

/-- The input configuration fields the core pipeline reads
(main.js lines 626-653), with the source defaults. -/
structure Config where
  searchType : String := "buy"
  propertyTypes : List String := []
  language : String := "fr"
  minPrice : Int := 0
  maxPrice : Int := 0
  minBedrooms : Int := 0
  maxBedrooms : Int := 0
  minBathrooms : Int := 0
  maxBathrooms : Int := 0
  minLivingArea : Int := 0
  maxLivingArea : Int := 0
  minLotSize : Int := 0
  maxLotSize : Int := 0
  yearBuiltMin : Int := 0
  yearBuiltMax : Int := 0
  maxListings : Nat := 100
  includeDetails : Bool := true
  maxRequestRetries : Nat := 3

/-- A normalized listing record as the pipeline passes it around;
every field is nullable (none embeds both JS null and undefined). -/
structure Listing where
  url : Option String := none
  priceFormatted : Option String := none
  price : Option Int := none
  bedrooms : Option Int := none
  bathrooms : Option Int := none
  livingArea : Option Int := none
  yearBuilt : Option Int := none
  lotSize : Option Int := none
  propertyType : Option String := none
  transactionType : Option String := none
  deriving Repr, DecidableEq

/-! ## Filter predicate evaluator (v2.0.0, main.js lines 689-763) -/

/-- Property type synonym table of v2.0.0 (main.js lines 611-619). -/
def PROPERTY_TYPE_MAP : List (String × List String) :=
  [("house", ["maison", "house", "detached", "unifamiliale"]),
   ("condo", ["condo", "condominium", "appartement", "apartment"]),
   ("plex", ["plex", "duplex", "triplex", "quadruplex", "multiplex", "revenue"]),
   ("land", ["terrain", "land", "lot"]),
   ("commercial", ["commercial", "industriel", "industrial"]),
   ("farm", ["ferme", "farm", "agricole"]),
   ("cottage", ["chalet", "cottage"])]

/-- Synonym variants for a requested category, falling back to the
lowercased request itself on a table miss (main.js line 746). -/
def typeVariantsFor (requested : String) : List String :=
  (PROPERTY_TYPE_MAP.lookup (jsToLower requested)).getD [jsToLower requested]

/-- Does the lowercased listing type contain a synonym of at least one
requested category (main.js lines 745-754)? -/
def typeMatches (requestedTypes : List String) (listingType : String) : Bool :=
  requestedTypes.any fun rt => (typeVariantsFor rt).any fun v => strIncludes listingType v

/-- Rejection test of the minimum price guard (main.js line 691): note
the truthiness test on the price, so null and 0 both pass. -/
def rejMinPrice (cfg : Config) (l : Listing) : Bool :=
  match l.price with
  | none => false
  | some v => decide (cfg.minPrice > 0) && (v != 0) && decide (v < cfg.minPrice)

/-- Rejection test of the maximum price guard (main.js line 695). -/
def rejMaxPrice (cfg : Config) (l : Listing) : Bool :=
  match l.price with
  | none => false
  | some v => decide (cfg.maxPrice > 0) && (v != 0) && decide (v > cfg.maxPrice)

/-- Rejection test of the minimum bedrooms guard (main.js line 701):
a strict non-null test, so null passes. -/
def rejMinBedrooms (cfg : Config) (l : Listing) : Bool :=
  match l.bedrooms with
  | none => false
  | some v => decide (cfg.minBedrooms > 0) && decide (v < cfg.minBedrooms)

/-- Rejection test of the maximum bedrooms guard (main.js line 705). -/
def rejMaxBedrooms (cfg : Config) (l : Listing) : Bool :=
  match l.bedrooms with
  | none => false
  | some v => decide (cfg.maxBedrooms > 0) && decide (v > cfg.maxBedrooms)

/-- Rejection test of the minimum bathrooms guard (main.js line 711). -/
def rejMinBathrooms (cfg : Config) (l : Listing) : Bool :=
  match l.bathrooms with
  | none => false
  | some v => decide (cfg.minBathrooms > 0) && decide (v < cfg.minBathrooms)

/-- Rejection test of the maximum bathrooms guard (main.js line 715). -/
def rejMaxBathrooms (cfg : Config) (l : Listing) : Bool :=
  match l.bathrooms with
  | none => false
  | some v => decide (cfg.maxBathrooms > 0) && decide (v > cfg.maxBathrooms)

/-- Rejection test of the minimum living area guard (main.js line 721). -/
def rejMinLivingArea (cfg : Config) (l : Listing) : Bool :=
  match l.livingArea with
  | none => false
  | some v => decide (cfg.minLivingArea > 0) && decide (v < cfg.minLivingArea)

/-- Rejection test of the maximum living area guard (main.js line 725). -/
def rejMaxLivingArea (cfg : Config) (l : Listing) : Bool :=
  match l.livingArea with
  | none => false
  | some v => decide (cfg.maxLivingArea > 0) && decide (v > cfg.maxLivingArea)

/-- Rejection test of the minimum year built guard (main.js line 731). -/
def rejYearBuiltMin (cfg : Config) (l : Listing) : Bool :=
  match l.yearBuilt with
  | none => false
  | some v => decide (cfg.yearBuiltMin > 0) && decide (v < cfg.yearBuiltMin)

/-- Rejection test of the maximum year built guard (main.js line 735). -/
def rejYearBuiltMax (cfg : Config) (l : Listing) : Bool :=
  match l.yearBuilt with
  | none => false
  | some v => decide (cfg.yearBuiltMax > 0) && decide (v > cfg.yearBuiltMax)

/-- Rejection test of the property type guard (main.js lines 741-760):
skipped when the requested set is empty or the listing type is falsy. -/
def rejPropertyType (cfg : Config) (l : Listing) : Bool :=
  match l.propertyType with
  | none => false
  | some t =>
    !t.data.isEmpty && !cfg.propertyTypes.isEmpty &&
      !typeMatches cfg.propertyTypes (jsToLower t)

/-- Embedding of matchesFilters (v2.0.0, main.js lines 689-763): a chain
of early-return rejection guards; note the absence of any lot size guard. -/
def matchesFilters (cfg : Config) (l : Listing) : Bool :=
  if rejMinPrice cfg l then false
  else if rejMaxPrice cfg l then false
  else if rejMinBedrooms cfg l then false
  else if rejMaxBedrooms cfg l then false
  else if rejMinBathrooms cfg l then false
  else if rejMaxBathrooms cfg l then false
  else if rejMinLivingArea cfg l then false
  else if rejMaxLivingArea cfg l then false
  else if rejYearBuiltMin cfg l then false
  else if rejYearBuiltMax cfg l then false
  else if rejPropertyType cfg l then false
  else true

/-- Modelled from the spec (FilterSpec of section 3 and section 4.3, as
read by claim C2): a record matches when every active bound passes,
where the bounds cover price, bedrooms, bathrooms, living area, lot
size and year built, a bound is active only when its configured value
is positive, a null field passes every range bound, and the property
type must contain a synonym of a requested category unless the
requested set is empty. -/
def passMinBound (bound : Int) (v : Option Int) : Bool :=
  if bound > 0 then (match v with | none => true | some x => decide (bound ≤ x)) else true

/-- Spec-side pass test for a maximum range bound; see passMinBound. -/
def passMaxBound (bound : Int) (v : Option Int) : Bool :=
  if bound > 0 then (match v with | none => true | some x => decide (x ≤ bound)) else true

/-- Modelled from the spec: the filter predicate as claim C2 states it,
an AND over all active bounds including the lot size bounds.  Written
only to be compared with the source definition matchesFilters. -/
def specMatchesFilters (cfg : Config) (l : Listing) : Bool :=
  passMinBound cfg.minPrice l.price && passMaxBound cfg.maxPrice l.price &&
  passMinBound cfg.minBedrooms l.bedrooms && passMaxBound cfg.maxBedrooms l.bedrooms &&
  passMinBound cfg.minBathrooms l.bathrooms && passMaxBound cfg.maxBathrooms l.bathrooms &&
  passMinBound cfg.minLivingArea l.livingArea && passMaxBound cfg.maxLivingArea l.livingArea &&
  passMinBound cfg.minLotSize l.lotSize && passMaxBound cfg.maxLotSize l.lotSize &&
  passMinBound cfg.yearBuiltMin l.yearBuilt && passMaxBound cfg.yearBuiltMax l.yearBuilt &&
  (cfg.propertyTypes.isEmpty ||
    (match l.propertyType with
     | none => true
     | some t => typeMatches cfg.propertyTypes (jsToLower t)))

/-! ## URL builder (v1.1.0, main.js lines 15-35 and 90-118) -/

def CENTRIS_BASE_URL : String := "https://www.centris.ca"

/-- Region synonym table of v1.1.0 (main.js lines 18-35). -/
def REGION_MAP : List (String × String) :=
  [("montreal", "montreal"),
   ("montréal", "montreal"),
   ("quebec city", "quebec"),
   ("québec", "quebec"),
   ("laval", "laval"),
   ("longueuil", "longueuil"),
   ("gatineau", "gatineau"),
   ("sherbrooke", "sherbrooke"),
   ("trois-rivières", "trois-rivieres"),
   ("trois-rivieres", "trois-rivieres"),
   ("saguenay", "saguenay"),
   ("lévis", "levis"),
   ("levis", "levis"),
   ("terrebonne", "terrebonne"),
   ("brossard", "brossard"),
   ("repentigny", "repentigny")]

/-- Collapse every run of whitespace into a single hyphen, the
embedding of the regex replace of whitespace-plus by a hyphen.  The
boolean flag records whether the previous character was part of a
whitespace run already replaced. -/
def collapseWsRuns : List Char → Bool → List Char
  | [], _ => []
  | c :: cs, prevWs =>
    if isWsChar c then
      if prevWs then collapseWsRuns cs true else '-' :: collapseWsRuns cs true
    else c :: collapseWsRuns cs false

/-- Fallback slug: lowercase, whitespace runs to hyphens (main.js line 92). -/
def slugify (region : String) : String :=
  ⟨collapseWsRuns (jsToLower region).data false⟩

/-- Region slug selection (main.js line 92): table lookup on the
lowercased name, else the slugified name.  The table values are all
non-empty, so the JS or-fallback is an Option.getD. -/
def regionSlug (region : String) : String :=
  (REGION_MAP.lookup (jsToLower region)).getD (slugify region)

/-- Query string assembly: the URLSearchParams of the source only ever
receives keys and values made of unreserved characters (digits,
letters), so its toString is a plain ampersand join. -/
def paramsToQuery (ps : List (String × String)) : String :=
  String.intercalate "&" (ps.map fun p => p.1 ++ "=" ++ p.2)

/-- Embedding of buildRegionSearchUrl (v1.1.0, main.js lines 90-118). -/
def buildRegionSearchUrl (cfg : Config) (region : String) (pageNumber : Nat) : String :=
  let isFrench := cfg.language == "fr"
  let slug := regionSlug region
  let baseUrl :=
    if cfg.searchType == "rent" then
      if isFrench then CENTRIS_BASE_URL ++ "/fr/propriete~a-louer~" ++ slug
      else CENTRIS_BASE_URL ++ "/en/properties~for-rent~" ++ slug
    else
      if isFrench then CENTRIS_BASE_URL ++ "/fr/propriete~a-vendre~" ++ slug
      else CENTRIS_BASE_URL ++ "/en/properties~for-sale~" ++ slug
  let params :=
    (if cfg.minPrice > 0 then [("pmin", toString cfg.minPrice)] else []) ++
    (if cfg.maxPrice > 0 then [("pmax", toString cfg.maxPrice)] else []) ++
    (if cfg.minBedrooms > 0 then [("bed", toString cfg.minBedrooms)] else []) ++
    (if pageNumber > 1 then [("view", "Thumbnail"), ("uc", "0")] else [])
  let queryString := paramsToQuery params
  if queryString.data.isEmpty then baseUrl else baseUrl ++ "?" ++ queryString

/-! ## Address parser (v1.0.0, main.js lines 1675-1696) -/

/-- Structured address fields; none embeds an absent field. -/
structure AddressParts where
  street : Option String := none
  city : Option String := none
  region : Option String := none
  postalCode : Option String := none
  deriving Repr, DecidableEq

/-- Letter class of the postal regex under the case-insensitive flag. -/
def isRegexLetter (c : Char) : Bool :=
  ('A' ≤ c && c ≤ 'Z') || ('a' ≤ c && c ≤ 'z')

/-- Try to match the postal code regex (letter digit letter,
whitespace-star, digit letter digit, case-insensitive) at the head of
the character list; returns the matched characters.  The whitespace
star is greedy and needs no backtracking because the next atom is a
digit, never whitespace. -/
def matchPostalAt (cs : List Char) : Option (List Char) :=
  match cs with
  | a :: b :: c :: rest =>
    if isRegexLetter a && b.isDigit && isRegexLetter c then
      let ws := rest.takeWhile isWsChar
      match rest.dropWhile isWsChar with
      | d :: e :: f :: _ =>
        if d.isDigit && isRegexLetter e && f.isDigit then
          some (a :: b :: c :: (ws ++ [d, e, f]))
        else none
      | _ => none
    else none
  | _ => none

/-- Leftmost match of the postal regex: returns the characters before
the match, the match, and the characters after it. -/
def findPostal : List Char → Option (List Char × List Char × List Char)
  | [] => none
  | c :: cs =>
    match matchPostalAt (c :: cs) with
    | some m => some ([], m, (c :: cs).drop m.length)
    | none =>
      match findPostal cs with
      | some (b, m, a) => some (c :: b, m, a)
      | none => none

/-- Field assignment over the comma-split trimmed segments
(main.js lines 1679-1695). -/
def parseSegs (parts : List String) : AddressParts :=
  let r0 : AddressParts := {}
  let r1 := match parts[0]? with
    | some p => { r0 with street := some p }
    | none => r0
  let r2 := match parts[1]? with
    | some p => { r1 with city := some p }
    | none => r1
  let r3 := match parts[2]? with
    | some p =>
      match findPostal p.data with
      | some (b, m, a) =>
        { r2 with postalCode := some (asciiUpper ⟨m⟩),
                  region := some (trimJs ⟨b ++ a⟩) }
      | none => { r2 with region := some p }
    | none => r2
  match parts[3]? with
  | some p => { r3 with postalCode := some p }
  | none => r3

/-- Embedding of parseAddress (v1.0.0, main.js lines 1675-1696): a
falsy input yields the empty record, else the input is split on commas,
each segment trimmed, and the fields assigned positionally. -/
def parseAddress : Option String → AddressParts
  | none => {}
  | some s =>
    if s.data.isEmpty then {}
    else parseSegs ((s.splitOn ",").map trimJs)

/-! ## Crawl scheduler model

The three request handlers, the failure handlers and the emission
paths of the variants, over an explicit task queue processed
sequentially in FIFO order (the order the crawl framework uses for a
single worker).  The rendered pages are an environment parameter: a
scenario maps a page id to the summaries its extraction yields and to
the next-page link target when a usable one exists, and maps a summary
to the result of the detail-page extraction for it. -/

/-- A unit of crawl work: a search results page or a listing detail
page carrying the originating summary. -/
inductive Task where
  | search (pageId : Nat)
  | detail (basic : Listing)
  deriving Repr, DecidableEq

/-- One record pushed to the output sink: a listing or, in the
variants that push them, an error record for a failed request. -/
inductive OutRec where
  | item (l : Listing)
  | failed (url : String) (msg : String)
  deriving Repr, DecidableEq

/-- Run state: the task queue, the dataset (output sink) and the
statistics counters of the source. -/
structure CrawlState where
  queue : List Task := []
  dataset : List OutRec := []
  listingsScraped : Nat := 0
  listingsFiltered : Nat := 0
  pagesScraped : Nat := 0
  errors : Nat := 0

/-- The crawl environment: page contents and detail extraction results. -/
structure Page where
  cards : List Listing := []
  nextPage : Option Nat := none

/-- Environment of one run; detailExtract models the result of
extractListingDetails merged over the basic listing. -/
structure Scenario where
  pages : Nat → Page
  detailExtract : Listing → Listing

/-- Transaction type tag of v1.1.0 (main.js lines 361, 475). -/
def tagV1 (cfg : Config) (l : Listing) : Listing :=
  { l with transactionType := some (if cfg.searchType == "rent" then "Rent" else "Sale") }

/-- Transaction type tag of v2.0.0 (main.js lines 1176, 1241). -/
def tagV2 (cfg : Config) (l : Listing) : Listing :=
  { l with transactionType := some (if cfg.searchType == "rent" then "Rental" else "Sale") }

/-- Transaction type tag of v1.0.0 (main.js line 1662), applied inside
extractListingFromCard. -/
def tagV3 (cfg : Config) (l : Listing) : Listing :=
  { l with transactionType := some (if cfg.searchType == "rent" then "Rent" else "Sale") }

/-! ### v2.0.0 handlers (main.js lines 1157-1294) -/

/-- Detail page handler of v2.0.0 (main.js lines 1164-1185): extract,
re-parse a falsy price from priceFormatted, filter, then emit and
count on a match with no quota test, else count as filtered. -/
def detailStepV2 (cfg : Config) (scen : Scenario) (st : CrawlState) (basic : Listing) : CrawlState :=
  let d := scen.detailExtract basic
  let d := if !jsTruthyInt d.price && jsTruthyStr d.priceFormatted
           then { d with price := parsePrice d.priceFormatted } else d
  if matchesFilters cfg d then
    { st with dataset := st.dataset ++ [OutRec.item (tagV2 cfg d)],
              listingsScraped := st.listingsScraped + 1 }
  else
    { st with listingsFiltered := st.listingsFiltered + 1 }

/-- The per-summary loop of the v2.0.0 search handler (main.js lines
1204-1250): quota break at the top, price pre-filter when a formatted
price exists, then enqueue for detail or emit directly. -/
def searchLoopV2 (cfg : Config) : List Listing → CrawlState → List Task → CrawlState × List Task
  | [], st, ts => (st, ts)
  | l :: rest, st, ts =>
    if st.listingsScraped ≥ cfg.maxListings then (st, ts)
    else
      let l1 := if jsTruthyStr l.priceFormatted
                then { l with price := parsePrice l.priceFormatted } else l
      if jsTruthyStr l.priceFormatted && rejMinPrice cfg l1 then
        searchLoopV2 cfg rest { st with listingsFiltered := st.listingsFiltered + 1 } ts
      else if jsTruthyStr l.priceFormatted && rejMaxPrice cfg l1 then
        searchLoopV2 cfg rest { st with listingsFiltered := st.listingsFiltered + 1 } ts
      else if jsTruthyStr l1.url && cfg.includeDetails then
        searchLoopV2 cfg rest st (ts ++ [Task.detail l1])
      else if jsTruthyStr l1.url then
        let l2 := if jsTruthyInt l1.price then l1
                  else { l1 with price := parsePrice l1.priceFormatted }
        if matchesFilters cfg l2 then
          searchLoopV2 cfg rest
            { st with dataset := st.dataset ++ [OutRec.item (tagV2 cfg l2)],
                      listingsScraped := st.listingsScraped + 1 } ts
        else
          searchLoopV2 cfg rest { st with listingsFiltered := st.listingsFiltered + 1 } ts
      else searchLoopV2 cfg rest st ts

/-- Search page handler of v2.0.0 (main.js lines 1192-1287): count the
page, run the loop, then enqueue the next page only when the quota is
unreached and the page yielded at least one summary. -/
def searchStepV2 (cfg : Config) (scen : Scenario) (st : CrawlState) (pid : Nat) : CrawlState :=
  let page := scen.pages pid
  let st1 := { st with pagesScraped := st.pagesScraped + 1 }
  let res := searchLoopV2 cfg page.cards st1 []
  let st2 := res.1
  let ts :=
    if st2.listingsScraped < cfg.maxListings && !page.cards.isEmpty then
      match page.nextPage with
      | some nid => res.2 ++ [Task.search nid]
      | none => res.2
    else res.2
  { st2 with queue := st2.queue ++ ts }

/-- Failed request handler of v2.0.0 (main.js lines 1290-1293): only
the error counter moves; no record is pushed to the output sink. -/
def failedStepV2 (st : CrawlState) : CrawlState :=
  { st with errors := st.errors + 1 }

/-- One sequential scheduler step of the v2.0.0 pipeline. -/
def processTaskV2 (cfg : Config) (scen : Scenario) (st : CrawlState) : CrawlState :=
  match st.queue with
  | [] => st
  | Task.search pid :: rest => searchStepV2 cfg scen { st with queue := rest } pid
  | Task.detail b :: rest => detailStepV2 cfg scen { st with queue := rest } b

/-- Fuelled FIFO driver of the v2.0.0 pipeline under the single-worker
schedule (maxConcurrency 1): one worker runs each request handler to
completion before the next request is taken, so each handler executes
atomically and every trace of this driver is a possible execution of
the program.  With two or more workers the handlers interleave at
their awaits; that execution model is cstep and crun below. -/
def runV2 (cfg : Config) (scen : Scenario) : Nat → CrawlState → CrawlState
  | 0, st => st
  | n + 1, st =>
    match st.queue with
    | [] => st
    | _ => runV2 cfg scen n (processTaskV2 cfg scen st)

/-! ### Interleaved execution of the v2.0.0 handlers

The request handlers suspend at every await; with maxConcurrency
above one, another in-flight handler can run between a suspension and
its resumption.  The state machine below splits the v2.0.0 handlers at
the awaited push to the output sink (main.js lines 1244-1245 in the
search loop, 1179-1180 in the detail handler): exactly the point where
the quota check at the top of the search loop (line 1205) and the
counter increment are separated.  Each step covers one execution
segment between suspension points; suspensions whose only effect is a
queue append (addRequests) or no state change at all (navigation,
extraction waits) are merged into their segment, which removes some
interleavings and adds none, so every trace of this machine is a
possible execution of the program under maxConcurrency at least the
number of workers. -/

/-- The phase of one in-flight worker: waiting for a request, inside
the search loop with the given summaries still pending, suspended
between the push of a summary and the counter increment, suspended
between the push of a detail record and the counter increment, or at
the pagination code after the loop. -/
inductive WPhase where
  | idle
  | loop (page : Page) (pending : List Listing)
  | midPush (page : Page) (pending : List Listing)
  | midPushDetail
  | pag (page : Page)

/-- Shared run state of the interleaved machine: the request queue,
the phase of each worker, the output sink and the counters. -/
structure CState where
  queue : List Task := []
  workers : List WPhase := []
  dataset : List OutRec := []
  listingsScraped : Nat := 0
  listingsFiltered : Nat := 0
  pagesScraped : Nat := 0

/-- One execution segment of worker i of the v2.0.0 pipeline
(main.js lines 1157-1287), between suspension points. -/
def cstep (cfg : Config) (scen : Scenario) (st : CState) (i : Nat) : CState :=
  match st.workers[i]? with
  | none => st
  | some WPhase.idle =>
    match st.queue with
    | [] => st
    | Task.search pid :: restQ =>
      let page := scen.pages pid
      { st with queue := restQ,
                pagesScraped := st.pagesScraped + 1,
                workers := st.workers.set i (WPhase.loop page page.cards) }
    | Task.detail b :: restQ =>
      let d := scen.detailExtract b
      let d := if !jsTruthyInt d.price && jsTruthyStr d.priceFormatted
               then { d with price := parsePrice d.priceFormatted } else d
      if matchesFilters cfg d then
        { st with queue := restQ,
                  dataset := st.dataset ++ [OutRec.item (tagV2 cfg d)],
                  workers := st.workers.set i WPhase.midPushDetail }
      else
        { st with queue := restQ,
                  listingsFiltered := st.listingsFiltered + 1,
                  workers := st.workers.set i WPhase.idle }
  | some (WPhase.loop page []) =>
    { st with workers := st.workers.set i (WPhase.pag page) }
  | some (WPhase.loop page (l :: rest)) =>
    if st.listingsScraped ≥ cfg.maxListings then
      { st with workers := st.workers.set i (WPhase.pag page) }
    else
      let l1 := if jsTruthyStr l.priceFormatted
                then { l with price := parsePrice l.priceFormatted } else l
      if jsTruthyStr l.priceFormatted && rejMinPrice cfg l1 then
        { st with listingsFiltered := st.listingsFiltered + 1,
                  workers := st.workers.set i (WPhase.loop page rest) }
      else if jsTruthyStr l.priceFormatted && rejMaxPrice cfg l1 then
        { st with listingsFiltered := st.listingsFiltered + 1,
                  workers := st.workers.set i (WPhase.loop page rest) }
      else if jsTruthyStr l1.url && cfg.includeDetails then
        { st with queue := st.queue ++ [Task.detail l1],
                  workers := st.workers.set i (WPhase.loop page rest) }
      else if jsTruthyStr l1.url then
        let l2 := if jsTruthyInt l1.price then l1
                  else { l1 with price := parsePrice l1.priceFormatted }
        if matchesFilters cfg l2 then
          { st with dataset := st.dataset ++ [OutRec.item (tagV2 cfg l2)],
                    workers := st.workers.set i (WPhase.midPush page rest) }
        else
          { st with listingsFiltered := st.listingsFiltered + 1,
                    workers := st.workers.set i (WPhase.loop page rest) }
      else { st with workers := st.workers.set i (WPhase.loop page rest) }
  | some (WPhase.midPush page rest) =>
    { st with listingsScraped := st.listingsScraped + 1,
              workers := st.workers.set i (WPhase.loop page rest) }
  | some WPhase.midPushDetail =>
    { st with listingsScraped := st.listingsScraped + 1,
              workers := st.workers.set i WPhase.idle }
  | some (WPhase.pag page) =>
    let st2 :=
      if st.listingsScraped < cfg.maxListings && !page.cards.isEmpty then
        match page.nextPage with
        | some nid => { st with queue := st.queue ++ [Task.search nid] }
        | none => st
      else st
    { st2 with workers := st2.workers.set i WPhase.idle }

/-- Run the interleaved machine under an explicit schedule: the list
names, in order, the worker that executes its next segment. -/
def crun (cfg : Config) (scen : Scenario) : List Nat → CState → CState
  | [], st => st
  | i :: sched, st => crun cfg scen sched (cstep cfg scen st i)

/-! ### v1.1.0 handlers (main.js lines 426-516) -/

/-- Detail page handler of v1.1.0 (main.js lines 433-440): extract,
tag, push unconditionally, count; no filter and no quota test. -/
def detailStepV1 (cfg : Config) (scen : Scenario) (st : CrawlState) (basic : Listing) : CrawlState :=
  let d := tagV1 cfg (scen.detailExtract basic)
  { st with dataset := st.dataset ++ [OutRec.item d],
            listingsScraped := st.listingsScraped + 1 }

/-- The per-summary loop of the v1.1.0 search handler (main.js lines
459-482): break when scraped plus processed reaches the quota;
processed counts only summaries with a truthy url. -/
def searchLoopV1 (cfg : Config) : List Listing → CrawlState → Nat → List Task → CrawlState × Nat × List Task
  | [], st, processed, ts => (st, processed, ts)
  | l :: rest, st, processed, ts =>
    if st.listingsScraped + processed ≥ cfg.maxListings then (st, processed, ts)
    else if jsTruthyStr l.url then
      if cfg.includeDetails then
        searchLoopV1 cfg rest st (processed + 1) (ts ++ [Task.detail l])
      else
        searchLoopV1 cfg rest
          { st with dataset := st.dataset ++ [OutRec.item (tagV1 cfg l)],
                    listingsScraped := st.listingsScraped + 1 }
          (processed + 1) ts
    else searchLoopV1 cfg rest st processed ts

/-- Search page handler of v1.1.0 (main.js lines 442-503): pagination
needs the quota unreached and at least one extracted summary. -/
def searchStepV1 (cfg : Config) (scen : Scenario) (st : CrawlState) (pid : Nat) : CrawlState :=
  let page := scen.pages pid
  let st1 := { st with pagesScraped := st.pagesScraped + 1 }
  let res := searchLoopV1 cfg page.cards st1 0 []
  let st2 := res.1
  let processed := res.2.1
  let ts :=
    if st2.listingsScraped + processed < cfg.maxListings && !page.cards.isEmpty then
      match page.nextPage with
      | some nid => res.2.2 ++ [Task.search nid]
      | none => res.2.2
    else res.2.2
  { st2 with queue := st2.queue ++ ts }

/-- Failed request handler of v1.1.0 (main.js lines 506-515): one error
count and one error record pushed to the output sink. -/
def failedStepV1 (url msg : String) (st : CrawlState) : CrawlState :=
  { st with errors := st.errors + 1,
            dataset := st.dataset ++ [OutRec.failed url msg] }

/-! ### v1.0.0 handlers (main.js lines 1900-1994) -/

/-- The card collection loop of the v1.0.0 search handler (main.js
lines 1936-1945): break when scraped plus collected reaches the quota;
extraction tags the card; only truthy-url results are kept. -/
def collectV3 (cfg : Config) : List Listing → Nat → Nat → List Listing
  | [], _, _ => []
  | c :: rest, scraped, acc =>
    if scraped + acc ≥ cfg.maxListings then []
    else
      let l := tagV3 cfg c
      if jsTruthyStr l.url then l :: collectV3 cfg rest scraped (acc + 1)
      else collectV3 cfg rest scraped acc

/-- Search page handler of v1.0.0 (main.js lines 1922-1980): collect,
then enqueue details or emit summaries, then probe the next page
whenever the quota is unreached, with no test that any summary was
found. -/
def searchStepV3 (cfg : Config) (scen : Scenario) (st : CrawlState) (pid : Nat) : CrawlState :=
  let page := scen.pages pid
  let st1 := { st with pagesScraped := st.pagesScraped + 1 }
  let toProc := collectV3 cfg page.cards st1.listingsScraped 0
  let st2 :=
    if cfg.includeDetails then st1
    else { st1 with dataset := st1.dataset ++ toProc.map OutRec.item,
                    listingsScraped := st1.listingsScraped + toProc.length }
  let ts0 := if cfg.includeDetails then toProc.map Task.detail else []
  let ts :=
    if st2.listingsScraped + toProc.length < cfg.maxListings then
      match page.nextPage with
      | some nid => ts0 ++ [Task.search nid]
      | none => ts0
    else ts0
  { st2 with queue := st2.queue ++ ts }

/-- Failed request handler of v1.0.0 (main.js lines 1983-1993): same
as v1.1.0, one error count and one pushed error record. -/
def failedStepV3 (url msg : String) (st : CrawlState) : CrawlState :=
  { st with errors := st.errors + 1,
            dataset := st.dataset ++ [OutRec.failed url msg] }

/-- Modelled from the spec: the retry loop of the crawl framework
(crawlee), which is not part of this repository.  Per section 4.6, a
task whose attempt fails while retries remain re-enters the queue with
one fewer retry remaining and the run state is untouched (the failure
handlers are not invoked); when no retry remains the task is terminal
and the failure handler runs exactly once.  Running a task that fails
on every attempt with maxRequestRetries retries remaining performs
maxRequestRetries + 1 failing attempts in a row. -/
def failAttempts (onExhaust : CrawlState → CrawlState) : Nat → CrawlState → CrawlState
  | 0, st => onExhaust st
  | retriesRemaining + 1, st => failAttempts onExhaust retriesRemaining st

/-- Transaction type of an output record, when it is a listing. -/
def recTransactionType : OutRec → Option String
  | OutRec.item l => l.transactionType
  | OutRec.failed _ _ => none

/-! ## Helper lemmas -/

/-- However many retries remain, the run of an always-failing task
applies the terminal failure handler exactly once to the start state. -/
lemma failAttempts_eq (onExhaust : CrawlState → CrawlState) :
    ∀ (k : Nat) (st : CrawlState), failAttempts onExhaust k st = onExhaust st := by
  intro k
  induction k with
  | zero => intro st; rfl
  | succ k ih => intro st; simpa [failAttempts] using ih st

/-- A configuration with every range bound active, for concrete
instantiations. -/
def cfgAllBounds : Config :=
  { minPrice := 100, maxPrice := 900, minBedrooms := 1, maxBedrooms := 9,
    minBathrooms := 1, maxBathrooms := 9, minLivingArea := 100, maxLivingArea := 9000,
    yearBuiltMin := 1900, yearBuiltMax := 2030 }

/-! ## Claims -/

/-- C2: the claim reads matchesFilters as the AND over every active
bound including lot size.  The code never consults the lot size
bounds: at the failing input (an active minLotSize of 5000 and a
record whose lot size is 100, every other field null) matchesFilters
retains the record while the spec predicate rejects it, and in general
matchesFilters is independent of the lot size configuration and of the
record lot size field. -/
theorem C2_lot_size_bound_ignored :
    matchesFilters { minLotSize := 5000 } { lotSize := some 100 } = true ∧
    specMatchesFilters { minLotSize := 5000 } { lotSize := some 100 } = false ∧
    (∀ (cfg : Config) (l : Listing) (a b : Int) (v : Option Int),
      matchesFilters { cfg with minLotSize := a, maxLotSize := b }
          { l with lotSize := v } = matchesFilters cfg l) := by
  refine ⟨by decide, by decide, ?_⟩
  intro cfg l a b v
  rfl

/-- C3: parsePrice itself meets the claim (digit stripping, null on an
empty remainder, zero preserved), but the inline price extraction of
the search card extractor post-composes the JS or-with-null, which
sends a parsed zero to null; so the zero-preservation part of the
claim fails on that code path. -/
theorem C3_zero_price_counterexample :
    parsePrice (some "0 $") = some 0 ∧ inlineCardPrice "0 $" = none := by
  decide

/-- C3 (amended): parsePrice strips every non-digit character, returns
null exactly when no digit remains (including on a null or empty
input), and preserves a genuine zero; the inline card extraction
equals parsePrice followed by the or-with-null coercion that maps zero
to null. -/
theorem C3_price_extraction_amended :
    parsePrice (some "750 000 $") = some 750000 ∧
    parsePrice (some "") = none ∧
    parsePrice (some "0 $") = some 0 ∧
    parsePrice none = none ∧
    (∀ s : String, inlineCardPrice s =
      (parsePrice (some s)).bind fun v => if v = 0 then none else some v) ∧
    (∀ s : String,
      (s.data.filter Char.isDigit).isEmpty = true → parsePrice (some s) = none) := by
  refine ⟨by decide, by decide, by decide, rfl, ?_, ?_⟩
  · intro s
    simp only [inlineCardPrice, parsePrice]
    by_cases h : s.data.isEmpty
    · have hd : s.data = [] := List.isEmpty_iff.mp h
      simp [h, hd]
    · simp only [h, if_false, Bool.false_eq_true]
      by_cases hc : (s.data.filter Char.isDigit).isEmpty
      · simp [hc]
      · simp [hc]
  · intro s h
    simp only [parsePrice]
    by_cases hd : s.data.isEmpty
    · simp [hd]
    · simp [hd, h]

/-- C3 witness: the amended theorem applied to a concrete digit-free
string. -/
theorem C3_price_extraction_amended_witness :
    parsePrice (some "abc $") = none :=
  C3_price_extraction_amended.2.2.2.2.2 "abc $" (by decide)

/-- C4: a null record field never causes rejection on a range bound of
that field: matchesFilters is unchanged when the bounds of the null
field are replaced by inactive bounds, for each of price, bedrooms,
bathrooms, living area and year built. -/
theorem C4_null_never_rejected (cfg : Config) (l : Listing) :
    (l.price = none → matchesFilters cfg l =
        matchesFilters { cfg with minPrice := 0, maxPrice := 0 } l) ∧
    (l.bedrooms = none → matchesFilters cfg l =
        matchesFilters { cfg with minBedrooms := 0, maxBedrooms := 0 } l) ∧
    (l.bathrooms = none → matchesFilters cfg l =
        matchesFilters { cfg with minBathrooms := 0, maxBathrooms := 0 } l) ∧
    (l.livingArea = none → matchesFilters cfg l =
        matchesFilters { cfg with minLivingArea := 0, maxLivingArea := 0 } l) ∧
    (l.yearBuilt = none → matchesFilters cfg l =
        matchesFilters { cfg with yearBuiltMin := 0, yearBuiltMax := 0 } l) := by
  refine ⟨?_, ?_, ?_, ?_, ?_⟩ <;> intro h <;>
    simp [matchesFilters, rejMinPrice, rejMaxPrice, rejMinBedrooms, rejMaxBedrooms,
      rejMinBathrooms, rejMaxBathrooms, rejMinLivingArea, rejMaxLivingArea,
      rejYearBuiltMin, rejYearBuiltMax, rejPropertyType, h]

/-- C4 witness: the theorem applied to the all-null record under a
configuration with every range bound active. -/
theorem C4_null_never_rejected_witness :
    (matchesFilters cfgAllBounds ({} : Listing) =
      matchesFilters { cfgAllBounds with minPrice := 0, maxPrice := 0 } ({} : Listing)) ∧
    (matchesFilters cfgAllBounds ({} : Listing) =
      matchesFilters { cfgAllBounds with minBedrooms := 0, maxBedrooms := 0 } ({} : Listing)) ∧
    (matchesFilters cfgAllBounds ({} : Listing) =
      matchesFilters { cfgAllBounds with minBathrooms := 0, maxBathrooms := 0 } ({} : Listing)) ∧
    (matchesFilters cfgAllBounds ({} : Listing) =
      matchesFilters { cfgAllBounds with minLivingArea := 0, maxLivingArea := 0 } ({} : Listing)) ∧
    (matchesFilters cfgAllBounds ({} : Listing) =
      matchesFilters { cfgAllBounds with yearBuiltMin := 0, yearBuiltMax := 0 } ({} : Listing)) := by
  have h := C4_null_never_rejected cfgAllBounds ({} : Listing)
  exact ⟨h.1 rfl, h.2.1 rfl, h.2.2.1 rfl, h.2.2.2.1 rfl, h.2.2.2.2 rfl⟩

/-- C5: at retry exhaustion the v2.0.0 failure handler increments the
error counter once but pushes nothing to the output sink, refuting the
exactly-one-error-record part of the claim: with maxRequestRetries 3,
a task failing 4 times in a row leaves the dataset empty. -/
theorem C5_v2_no_error_record_counterexample :
    (failAttempts failedStepV2 3 {}).errors = 1 ∧
    (failAttempts failedStepV2 3 {}).dataset = [] := by
  decide

/-- C5 (amended): a task that fails maxRetries + 1 times in a row runs
the failure handler exactly once: in every variant the errors counter
rises by exactly one (not once per attempt) and no listing is counted;
v1.1.0 and v1.0.0 additionally push exactly one error record for the
URL of the task, while v2.0.0 pushes no error record at all. -/
theorem C5_retry_exhaustion_amended (mr : Nat) (st : CrawlState) (url msg : String) :
    (failAttempts (failedStepV1 url msg) mr st).errors = st.errors + 1 ∧
    (failAttempts (failedStepV1 url msg) mr st).dataset =
      st.dataset ++ [OutRec.failed url msg] ∧
    (failAttempts (failedStepV1 url msg) mr st).listingsScraped = st.listingsScraped ∧
    (failAttempts failedStepV2 mr st).errors = st.errors + 1 ∧
    (failAttempts failedStepV2 mr st).dataset = st.dataset ∧
    (failAttempts (failedStepV3 url msg) mr st).errors = st.errors + 1 ∧
    (failAttempts (failedStepV3 url msg) mr st).dataset =
      st.dataset ++ [OutRec.failed url msg] := by
  simp [failAttempts_eq, failedStepV1, failedStepV2, failedStepV3]

/-- C10: a price equal to zero bypasses both price guards because the
guards test JS truthiness, so the record is retained exactly as a
record with a null price is. -/
theorem C10_zero_price_bypasses_price_bounds (cfg : Config) (l : Listing)
    (hactive : cfg.minPrice > 0 ∨ cfg.maxPrice > 0) (hp : l.price = some 0) :
    matchesFilters cfg l = matchesFilters { cfg with minPrice := 0, maxPrice := 0 } l ∧
    matchesFilters cfg l = matchesFilters cfg { l with price := none } := by
  constructor <;>
    simp [matchesFilters, rejMinPrice, rejMaxPrice, rejMinBedrooms, rejMaxBedrooms,
      rejMinBathrooms, rejMaxBathrooms, rejMinLivingArea, rejMaxLivingArea,
      rejYearBuiltMin, rejYearBuiltMax, rejPropertyType, hp]

/-- C10 witness: the theorem applied to a zero-price record under
active price bounds. -/
theorem C10_zero_price_bypasses_price_bounds_witness :
    matchesFilters { minPrice := 100000, maxPrice := 900000 } { price := some 0 } =
      matchesFilters { ({ minPrice := 100000, maxPrice := 900000 } : Config) with
        minPrice := 0, maxPrice := 0 } { price := some 0 } :=
  (C10_zero_price_bypasses_price_bounds
    { minPrice := 100000, maxPrice := 900000 } { price := some 0 }
    (Or.inl (by decide)) rfl).1

/-- A scenario whose detail extraction adds nothing, for concrete
instantiations. -/
def scenId : Scenario :=
  { pages := fun _ => {}, detailExtract := id }

/-- C6: the claim requires transactionType to be Sale or Rental on
every emission path of every variant; the v1.1.0 detail-page emission
tags a rent search with the value Rent, which is neither. -/
theorem C6_rent_tag_counterexample :
    (detailStepV1 { searchType := "rent" } scenId {} { url := some "u" }).dataset =
      [OutRec.item { url := some "u", transactionType := some "Rent" }] ∧
    (("Rent" : String) ≠ "Sale" ∧ ("Rent" : String) ≠ "Rental") := by
  constructor
  · rfl
  · constructor <;> decide

/-- The v2.0.0 tag always carries Sale or Rental. -/
lemma tagV2_sale_or_rental (cfg : Config) (l : Listing) :
    (tagV2 cfg l).transactionType = some "Sale" ∨
    (tagV2 cfg l).transactionType = some "Rental" := by
  cases hst : (cfg.searchType == "rent")
  · exact Or.inl (by simp [tagV2, hst])
  · exact Or.inr (by simp [tagV2, hst])

/-- The v1.1.0 tag always carries Sale or Rent. -/
lemma tagV1_sale_or_rent (cfg : Config) (l : Listing) :
    (tagV1 cfg l).transactionType = some "Sale" ∨
    (tagV1 cfg l).transactionType = some "Rent" := by
  cases hst : (cfg.searchType == "rent")
  · exact Or.inl (by simp [tagV1, hst])
  · exact Or.inr (by simp [tagV1, hst])

/-- The v1.0.0 tag always carries Sale or Rent. -/
lemma tagV3_sale_or_rent (cfg : Config) (l : Listing) :
    (tagV3 cfg l).transactionType = some "Sale" ∨
    (tagV3 cfg l).transactionType = some "Rent" := by
  cases hst : (cfg.searchType == "rent")
  · exact Or.inl (by simp [tagV3, hst])
  · exact Or.inr (by simp [tagV3, hst])

/-- C6 (amended): every record the v2.0.0 detail handler adds to the
dataset carries transactionType Sale or Rental; the v2.0.0 tag always
yields Sale or Rental, while the v1.1.0 and v1.0.0 tags instead yield
Sale or Rent. -/
theorem C6_transaction_type_amended :
    (∀ (cfg : Config) (scen : Scenario) (st : CrawlState) (b : Listing) (r : OutRec),
        r ∈ (detailStepV2 cfg scen st b).dataset → r ∈ st.dataset ∨
          recTransactionType r = some "Sale" ∨ recTransactionType r = some "Rental") ∧
    (∀ (cfg : Config) (l : Listing),
        (tagV2 cfg l).transactionType = some "Sale" ∨
        (tagV2 cfg l).transactionType = some "Rental") ∧
    (∀ (cfg : Config) (l : Listing),
        (tagV1 cfg l).transactionType = some "Sale" ∨
        (tagV1 cfg l).transactionType = some "Rent") ∧
    (∀ (cfg : Config) (l : Listing),
        (tagV3 cfg l).transactionType = some "Sale" ∨
        (tagV3 cfg l).transactionType = some "Rent") := by
  refine ⟨?_, fun cfg l => tagV2_sale_or_rental cfg l,
    fun cfg l => tagV1_sale_or_rent cfg l, fun cfg l => tagV3_sale_or_rent cfg l⟩
  intro cfg scen st b r hr
  simp only [detailStepV2] at hr
  split at hr <;> split at hr <;>
    first
      | exact Or.inl hr
      | · rcases List.mem_append.mp hr with hl | hx
          · exact Or.inl hl
          · have hx2 := List.mem_singleton.mp hx
            subst hx2
            rcases tagV2_sale_or_rental cfg _ with h | h
            · exact Or.inr (Or.inl (by simpa [recTransactionType] using h))
            · exact Or.inr (Or.inr (by simpa [recTransactionType] using h))

/-- C6 witness: the first part of the amended theorem applied to the
record the v2.0.0 detail handler emits from the default configuration
and an empty start state. -/
theorem C6_transaction_type_amended_witness :
    OutRec.item { transactionType := some "Sale" } ∈ ({} : CrawlState).dataset ∨
    recTransactionType (OutRec.item { transactionType := some "Sale" }) = some "Sale" ∨
    recTransactionType (OutRec.item { transactionType := some "Sale" }) = some "Rental" :=
  C6_transaction_type_amended.1 {} scenId {} {}
    (OutRec.item { transactionType := some "Sale" }) (by decide)

/-- A scenario whose only interesting page has one card without a url,
so its extraction yields zero summaries, and a next-page link. -/
def scenNoSummaries : Scenario :=
  { pages := fun _ => { cards := [{ url := none }], nextPage := some 1 },
    detailExtract := id }

/-- C7: the v1.0.0 search handler checks only the quota before probing
for a next page: on a page whose single card yields no summary (zero
summaries collected) it still enqueues the next-page task, refuting
the claim for that cited handler. -/
theorem C7_v3_zero_summaries_still_probes :
    collectV3 {} (scenNoSummaries.pages 0).cards 0 0 = [] ∧
    (searchStepV3 {} scenNoSummaries { queue := [] } 0).queue = [Task.search 1] := by
  constructor
  · rfl
  · rfl

/-- C7 (amended): the v1.1.0 and v2.0.0 search handlers never enqueue
anything on a page yielding zero summaries (pagination requires at
least one summary), while the v1.0.0 handler checks only the quota and
so can still enqueue a next-page task on such a page. -/
theorem C7_zero_summaries_no_probe (cfg : Config) (scen : Scenario)
    (st : CrawlState) (pid : Nat) (h : (scen.pages pid).cards = []) :
    (searchStepV1 cfg scen st pid).queue = st.queue ∧
    (searchStepV2 cfg scen st pid).queue = st.queue := by
  constructor
  · simp [searchStepV1, searchLoopV1, h]
  · simp [searchStepV2, searchLoopV2, h]

/-- A scenario with no cards anywhere and a next-page link on every
page. -/
def scenEmptyPages : Scenario :=
  { pages := fun _ => { cards := [], nextPage := some 5 }, detailExtract := id }

/-- C7 witness: the amended theorem applied to an empty page with a
present next-page link. -/
theorem C7_zero_summaries_no_probe_witness :
    (searchStepV1 {} scenEmptyPages { queue := [Task.search 9] } 0).queue =
      ({ queue := [Task.search 9] } : CrawlState).queue ∧
    (searchStepV2 {} scenEmptyPages { queue := [Task.search 9] } 0).queue =
      ({ queue := [Task.search 9] } : CrawlState).queue :=
  C7_zero_summaries_no_probe {} scenEmptyPages { queue := [Task.search 9] } 0 rfl

/-- C8: the URL builder is a pure function of its inputs (two equal
calls give the same string), the region synonyms for Quebec City
produce byte-identical URLs, and a region missing from the synonym
table falls back to the lowercase whitespace-to-hyphen slug. -/
theorem C8_url_builder_deterministic (cfg : Config) (r : String) (p : Nat) :
    (buildRegionSearchUrl cfg r p = buildRegionSearchUrl cfg r p) ∧
    (buildRegionSearchUrl cfg "Québec" p = buildRegionSearchUrl cfg "quebec city" p) ∧
    ((REGION_MAP.lookup (jsToLower r)).isNone = true → regionSlug r = slugify r) := by
  refine ⟨rfl, ?_, ?_⟩
  · have h : regionSlug "Québec" = regionSlug "quebec city" := by decide
    simp only [buildRegionSearchUrl, h]
  · intro h
    simp [regionSlug, Option.isNone_iff_eq_none.mp h]

/-- C8 witness: the fallback part applied to a region missing from the
table, and the synonym part at a concrete configuration. -/
theorem C8_url_builder_deterministic_witness :
    regionSlug "Saint Denis" = slugify "Saint Denis" ∧
    buildRegionSearchUrl {} "Québec" 1 = buildRegionSearchUrl {} "quebec city" 1 :=
  ⟨(C8_url_builder_deterministic {} "Saint Denis" 1).2.2 (by decide),
   (C8_url_builder_deterministic {} "x" 1).2.1⟩

/-- A configuration requesting a single listing with detail pages. -/
def cfgOneDetail : Config := { maxListings := 1 }

/-- A single search page offering two summaries with valid urls and no
next page; detail extraction adds nothing. -/
def scenTwoCards : Scenario :=
  { pages := fun _ =>
      { cards := [{ url := some "https://www.centris.ca/fr/x/11111111" },
                  { url := some "https://www.centris.ca/fr/x/22222222" }] },
    detailExtract := id }

/-- The initial frontier: the seed search page. -/
def stSeed : CrawlState := { queue := [Task.search 0] }

/-- C1: with maxListings 1 and two matching candidates on one page,
the v2.0.0 pipeline enqueues both detail tasks while the emitted count
is still zero and the detail handler emits without re-checking the
quota, so the run emits 2 records already under the single-worker
schedule: the claim that exactly N are emitted and that the quota is
re-evaluated before each detail-page emission fails on the code. -/
theorem C1_quota_overshoot_counterexample :
    cfgOneDetail.maxListings = 1 ∧
    (runV2 cfgOneDetail scenTwoCards 10 stSeed).listingsScraped = 2 ∧
    (runV2 cfgOneDetail scenTwoCards 10 stSeed).dataset.length = 2 := by
  refine ⟨rfl, ?_, ?_⟩ <;> decide

/-- Is a task a search-page task? -/
def isSearchTask : Task → Bool
  | Task.search _ => true
  | Task.detail _ => false

/-- With detail pages disabled, the v2.0.0 search loop emits only
under the re-checked quota test, adds no task, and leaves the queue
alone: the emitted count stays within the quota and the dataset length
tracks it. -/
lemma searchLoopV2_summary (cfg : Config) (hdet : cfg.includeDetails = false) :
    ∀ (ls : List Listing) (st : CrawlState) (ts : List Task),
      st.listingsScraped ≤ cfg.maxListings →
      st.dataset.length = st.listingsScraped →
      (searchLoopV2 cfg ls st ts).1.listingsScraped ≤ cfg.maxListings ∧
      (searchLoopV2 cfg ls st ts).1.dataset.length =
        (searchLoopV2 cfg ls st ts).1.listingsScraped ∧
      (searchLoopV2 cfg ls st ts).2 = ts ∧
      (searchLoopV2 cfg ls st ts).1.queue = st.queue := by
  intro ls
  induction ls with
  | nil =>
    intro st ts h1 h2
    exact ⟨h1, h2, rfl, rfl⟩
  | cons l rest ih =>
    intro st ts h1 h2
    by_cases hq : st.listingsScraped ≥ cfg.maxListings
    · simp only [searchLoopV2, if_pos hq]
      exact ⟨h1, h2, by trivial, by trivial⟩
    · have hlt : st.listingsScraped < cfg.maxListings := Nat.lt_of_not_le hq
      simp only [searchLoopV2, if_neg hq, hdet, Bool.and_false, Bool.false_eq_true,
        if_false]
      repeat' split
      all_goals
        first
          | exact ih _ _ h1 h2
          | · refine ih _ _ (Nat.succ_le_of_lt hlt) ?_
              simpa using h2

/-- With detail pages disabled, one v2.0.0 scheduler step preserves
the summary-mode invariant: all queued tasks are search tasks, the
emitted count is within the quota, and the dataset length equals it. -/
lemma processTaskV2_summary (cfg : Config) (scen : Scenario)
    (hdet : cfg.includeDetails = false) (st : CrawlState)
    (hq : st.queue.all isSearchTask = true)
    (h1 : st.listingsScraped ≤ cfg.maxListings)
    (h2 : st.dataset.length = st.listingsScraped) :
    (processTaskV2 cfg scen st).queue.all isSearchTask = true ∧
    (processTaskV2 cfg scen st).listingsScraped ≤ cfg.maxListings ∧
    (processTaskV2 cfg scen st).dataset.length =
      (processTaskV2 cfg scen st).listingsScraped := by
  rcases hst : st.queue with _ | ⟨t, rest⟩
  · have heq : processTaskV2 cfg scen st = st := by
      simp [processTaskV2, hst]
    rw [heq]
    exact ⟨hq, h1, h2⟩
  · have hq' := hq
    rw [hst] at hq'
    simp only [List.all_cons, Bool.and_eq_true] at hq'
    cases t with
    | detail b => simp [isSearchTask] at hq'
    | search pid =>
      simp only [processTaskV2, hst, searchStepV2]
      have hloop := searchLoopV2_summary cfg hdet (scen.pages pid).cards
        { st with queue := rest, pagesScraped := st.pagesScraped + 1 } [] h1 h2
      rcases hloop with ⟨g1, g2, g3, g4⟩
      refine ⟨?_, g1, g2⟩
      rcases hnp : (scen.pages pid).nextPage with _ | nid <;>
        simp only [g3, g4, hnp] <;>
          split <;>
            simp [List.all_append, hq'.2, isSearchTask]

/-- The summary-mode invariant is preserved by any number of v2.0.0
scheduler steps. -/
lemma runV2_summary (cfg : Config) (scen : Scenario)
    (hdet : cfg.includeDetails = false) :
    ∀ (fuel : Nat) (st : CrawlState),
      st.queue.all isSearchTask = true →
      st.listingsScraped ≤ cfg.maxListings →
      st.dataset.length = st.listingsScraped →
      (runV2 cfg scen fuel st).queue.all isSearchTask = true ∧
      (runV2 cfg scen fuel st).listingsScraped ≤ cfg.maxListings ∧
      (runV2 cfg scen fuel st).dataset.length =
        (runV2 cfg scen fuel st).listingsScraped := by
  intro fuel
  induction fuel with
  | zero => intro st hq h1 h2; exact ⟨hq, h1, h2⟩
  | succ n ih =>
    intro st hq h1 h2
    rcases hst : st.queue with _ | ⟨t, rest⟩
    · simp only [runV2, hst]
      exact ⟨hst ▸ hq, h1, h2⟩
    · have hstep := processTaskV2_summary cfg scen hdet st hq h1 h2
      simp only [runV2, hst]
      exact ih _ hstep.1 hstep.2.1 hstep.2.2

/-- A summary-only configuration requesting a single listing. -/
def cfgSummaryOne : Config := { maxListings := 1, includeDetails := false }

/-- Two regions, each a search page offering one matching summary and
no next page; detail extraction adds nothing. -/
def scenTwoRegions : Scenario :=
  { pages := fun pid =>
      if pid = 0 then
        { cards := [{ url := some "https://www.centris.ca/fr/x/11111111" }] }
      else
        { cards := [{ url := some "https://www.centris.ca/fr/x/22222222" }] },
    detailExtract := id }

/-- Two idle workers and the two seeded region search requests. -/
def cstTwoWorkers : CState :=
  { queue := [Task.search 0, Task.search 1],
    workers := [WPhase.idle, WPhase.idle] }

/-- C1 (amended): the quota check is evaluated only at the top of the
search-page loop, never immediately before an emission.  Under the
single-worker schedule the summary-only loop keeps the emitted count
within maxListings; but the check and the increment are separated by
the awaited push, so with two workers an interleaved schedule lets
both handlers pass the check at the same counter value and the
summary-only run emits 2 records with maxListings 1. -/
theorem C1_quota_check_amended :
    (∀ (cfg : Config) (scen : Scenario) (fuel : Nat) (st : CrawlState),
      cfg.includeDetails = false →
      st.queue.all isSearchTask = true →
      st.listingsScraped ≤ cfg.maxListings →
      st.dataset.length = st.listingsScraped →
      (runV2 cfg scen fuel st).listingsScraped ≤ cfg.maxListings ∧
      (runV2 cfg scen fuel st).dataset.length ≤ cfg.maxListings) ∧
    (cfgSummaryOne.maxListings = 1 ∧
     cfgSummaryOne.includeDetails = false ∧
     (crun cfgSummaryOne scenTwoRegions [0, 1, 0, 1, 0, 1, 0, 1]
       cstTwoWorkers).listingsScraped = 2 ∧
     (crun cfgSummaryOne scenTwoRegions [0, 1, 0, 1, 0, 1, 0, 1]
       cstTwoWorkers).dataset.length = 2) := by
  constructor
  · intro cfg scen fuel st hdet hq h1 h2
    have h := runV2_summary cfg scen hdet fuel st hq h1 h2
    exact ⟨h.2.1, h.2.2 ▸ h.2.1⟩
  · refine ⟨rfl, rfl, ?_, ?_⟩ <;> decide

/-- C1 witness: the single-worker part of the amended theorem applied
to the two-card scenario in summary mode with maxListings 1. -/
theorem C1_quota_check_amended_witness :
    (runV2 { maxListings := 1, includeDetails := false } scenTwoCards 10
      stSeed).listingsScraped ≤
      ({ maxListings := 1, includeDetails := false } : Config).maxListings ∧
    (runV2 { maxListings := 1, includeDetails := false } scenTwoCards 10
      stSeed).dataset.length ≤
      ({ maxListings := 1, includeDetails := false } : Config).maxListings :=
  C1_quota_check_amended.1 { maxListings := 1, includeDetails := false }
    scenTwoCards 10 stSeed rfl (by decide) (by decide) rfl

/-- Positional field assignment of the segment parser: street from
segment 0, city from segment 1, region and postal code from segment 2
(with the postal match extracted out when present), and a postal code
override from segment 3. -/
lemma parseSegs_fields (parts : List String) :
    (parseSegs parts).street = parts[0]? ∧
    (parseSegs parts).city = parts[1]? ∧
    (parts[2]? = none → (parseSegs parts).region = none ∧
      (parseSegs parts).postalCode = none) ∧
    (∀ p2 b m a, parts[2]? = some p2 → findPostal p2.data = some (b, m, a) →
      (parseSegs parts).region = some (trimJs ⟨b ++ a⟩) ∧
      (parts[3]? = none → (parseSegs parts).postalCode = some (asciiUpper ⟨m⟩))) ∧
    (∀ p2, parts[2]? = some p2 → findPostal p2.data = none →
      (parseSegs parts).region = some p2 ∧
      (parts[3]? = none → (parseSegs parts).postalCode = none)) ∧
    (∀ p3, parts[3]? = some p3 → (parseSegs parts).postalCode = some p3) := by
  rcases parts with _ | ⟨a0, _ | ⟨a1, _ | ⟨a2, rest3⟩⟩⟩
  · simp [parseSegs]
  · simp [parseSegs]
  · simp [parseSegs]
  · rcases hf : findPostal a2.data with _ | ⟨b2, m2, x2⟩ <;>
      rcases rest3 with _ | ⟨a3, rest4⟩ <;>
        simp_all [parseSegs]

/-- C9: for every non-empty input string the address parser assigns
the trimmed comma segments positionally: segment 0 to street, segment
1 to city, segment 2 to region with any postal-format match extracted
into the postal code, and segment 3, when present, overriding the
postal code; missing segments leave the fields null, and the function
is total. -/
theorem C9_parse_address (s : String) (h : s.data.isEmpty = false) :
    (parseAddress (some s)).street = ((s.splitOn ",").map trimJs)[0]? ∧
    (parseAddress (some s)).city = ((s.splitOn ",").map trimJs)[1]? ∧
    (((s.splitOn ",").map trimJs)[2]? = none →
      (parseAddress (some s)).region = none ∧
      (parseAddress (some s)).postalCode = none) ∧
    (∀ p2 b m a, ((s.splitOn ",").map trimJs)[2]? = some p2 →
      findPostal p2.data = some (b, m, a) →
      (parseAddress (some s)).region = some (trimJs ⟨b ++ a⟩) ∧
      (((s.splitOn ",").map trimJs)[3]? = none →
        (parseAddress (some s)).postalCode = some (asciiUpper ⟨m⟩))) ∧
    (∀ p2, ((s.splitOn ",").map trimJs)[2]? = some p2 →
      findPostal p2.data = none →
      (parseAddress (some s)).region = some p2 ∧
      (((s.splitOn ",").map trimJs)[3]? = none →
        (parseAddress (some s)).postalCode = none)) ∧
    (∀ p3, ((s.splitOn ",").map trimJs)[3]? = some p3 →
      (parseAddress (some s)).postalCode = some p3) := by
  have e : parseAddress (some s) = parseSegs ((s.splitOn ",").map trimJs) := by
    simp [parseAddress, h]
  rw [e]
  exact parseSegs_fields ((s.splitOn ",").map trimJs)

/-- C9 witness: the theorem applied to a concrete address with a
postal code inside segment 2. -/
theorem C9_parse_address_witness :
    (parseAddress (some "123 Rue Example, Montreal, QC h2t 1a1")).street =
      (("123 Rue Example, Montreal, QC h2t 1a1".splitOn ",").map trimJs)[0]? :=
  (C9_parse_address "123 Rue Example, Montreal, QC h2t 1a1" (by decide)).1

end Centris
